import Mathlib

/-! DesiJarvis chat widget (`script.js`): a shallow embedding.

The script is event wiring over the DOM.  The embedding keeps the state the
handlers read and write:

* the children of `#chat-history` carrying the class `message` (the transcript),
* the value of `#user-input`, the `#persona-select` control, the text of
  `#current-model`, the `show` class of `#typing-indicator` and `#rate-warning`,
* the module variables `lastRequestTime`, `requestCount`, `currentTheme`,
* `localStorage`,
* two ghost fields recording the calls that leave the page: the network requests
  issued so far and the number of `showRateWarning()` calls.

An `async` handler is cut at its `await` points: the synchronous first part is
one function, and each continuation is a function applied to the state that is
current when the awaited promise settles.  `Date.now()` is an argument.
Timestamps are integer milliseconds and counters are small integers, both
exactly representable as JS numbers, so they are modelled by `Int` and `Nat`.
Effects that no later code reads (vibration, scrolling, focus, console output,
textarea height, the theme icon) are left out.
-/

namespace DesiJarvis

/-! ## Values produced by `response.json()` -/

/-- A JS number, represented by the two observations the script can make of it:
`ToBoolean` (false exactly for `0`, `-0`, `NaN`) and `ToString`. -/
structure JSNumber where
  truthy : Bool
  text : String
deriving DecidableEq, Repr

/-- A value built by `JSON.parse`.  An object is the list of its own properties. -/
inductive JSValue where
  | null
  | bool (b : Bool)
  | number (n : JSNumber)
  | string (s : String)
  | array (xs : List JSValue)
  | object (props : List (String × JSValue))

/-- The exceptions the handlers can meet. -/
inductive Thrown where
  | typeError
deriving DecidableEq, Repr

/-- Own-property lookup in a parsed object. -/
def lookupProp (key : String) : List (String × JSValue) → Option JSValue
  | [] => none
  | (k, v) :: rest => if k = key then some v else lookupProp key rest

/-- Property read `data.key` for a key that no built-in prototype defines
(`reply`, `model`, `error`): `none` is `undefined`; reading from `null` throws. -/
def getProp (data : JSValue) (key : String) : Except Thrown (Option JSValue) :=
  match data with
  | .null => .error .typeError
  | .object props => .ok (lookupProp key props)
  | _ => .ok none

/-- The abstract operation `ToBoolean` on a parsed value. -/
def JSValue.truthy : JSValue → Bool
  | .null => false
  | .bool b => b
  | .number n => n.truthy
  | .string s => s != ""
  | .array _ => true
  | .object _ => true

/-- The abstract operation `ToBoolean` on a possibly `undefined` value. -/
def truthy (v : Option JSValue) : Bool :=
  match v with
  | none => false
  | some x => x.truthy

/-- Whether the object has an own property of that name. -/
def hasOwn (key : String) (props : List (String × JSValue)) : Bool :=
  (lookupProp key props).isSome

/-- The text an array element contributes to `Array.prototype.join`:
`null` gives the empty string, anything else its `ToString`. -/
def elementText (x : JSValue) (r : Except Thrown String) : Except Thrown String :=
  match x with
  | .null => .ok ""
  | _ => r

/-- Concatenation of two conversions, failing when either throws. -/
def catText (a b : Except Thrown String) : Except Thrown String :=
  match a, b with
  | .ok x, .ok y => .ok (x ++ y)
  | _, _ => .error .typeError

mutual
/-- The abstract operation `ToString` on a parsed value.  A plain object gives `[object Object]`; an
object with an own `toString` property (never callable after `JSON.parse`) makes
`OrdinaryToPrimitive` throw a `TypeError`. -/
def JSValue.toStr : JSValue → Except Thrown String
  | .null => .ok "null"
  | .bool b => .ok (if b then "true" else "false")
  | .number n => .ok n.text
  | .string s => .ok s
  | .array xs => joinElements xs
  | .object props => if hasOwn "toString" props then .error .typeError else .ok "[object Object]"
/-- The method `Array.prototype.join` with the default separator. -/
def joinElements : List JSValue → Except Thrown String
  | [] => .ok ""
  | x :: rest => catText (elementText x x.toStr) (joinRest rest)
/-- The elements after the first, each preceded by a comma. -/
def joinRest : List JSValue → Except Thrown String
  | [] => .ok ""
  | x :: rest => catText (.ok ",") (catText (elementText x x.toStr) (joinRest rest))
end

/-- The abstract operation `ToString` on a possibly `undefined` value, as in a template literal. -/
def toStr (v : Option JSValue) : Except Thrown String :=
  match v with
  | none => .ok "undefined"
  | some x => x.toStr

/-- Conversion done by the `textContent` setter: `null` and `undefined` become the
empty string. -/
def textContentOf (v : Option JSValue) : Except Thrown String :=
  match v with
  | none => .ok ""
  | some .null => .ok ""
  | some x => x.toStr

/-! ## `String.prototype.trim` -/

/-- The code points `trim` strips: ECMAScript `WhiteSpace` and `LineTerminator`. -/
def isJSWhitespace (c : Char) : Bool :=
  let n := c.toNat
  n == 0x09 || n == 0x0A || n == 0x0B || n == 0x0C || n == 0x0D || n == 0x20 ||
  n == 0xA0 || n == 0x1680 || (0x2000 ≤ n && n ≤ 0x200A) || n == 0x2028 ||
  n == 0x2029 || n == 0x202F || n == 0x205F || n == 0x3000 || n == 0xFEFF

/-- The call `str.trim()`. -/
def jsTrim (str : String) : String :=
  String.mk ((str.data.dropWhile isJSWhitespace).reverse.dropWhile isJSWhitespace).reverse

/-! ## Page state -/

/-- A `div.message` element as built by `createMessageElement`: its second class
(the role), the avatar text, the text of the content wrapper and the optional
`div.message-model` child. -/
structure MessageElement where
  role : String
  avatar : String
  content : String
  modelInfo : Option String
deriving DecidableEq, Repr

/-- A `select` element: the values of its options and the current value. -/
structure SelectElement where
  options : List String
  value : String
deriving DecidableEq, Repr

/-- Assignment to `select.value`: the option with that value becomes selected; with
no such option nothing is selected and the value reads as the empty string. -/
def SelectElement.setValue (sel : SelectElement) (v : String) : SelectElement :=
  { sel with value := if v ∈ sel.options then v else "" }

/-- The contents of `localStorage`. -/
abbrev Storage := List (String × String)

/-- The call `localStorage.getItem(key)`; `none` is `null`. -/
def getItem (st : Storage) (key : String) : Option String :=
  match st with
  | [] => none
  | (k, v) :: rest => if k = key then some v else getItem rest key

/-- The call `localStorage.setItem(key, value)`. -/
def setItem (st : Storage) (key value : String) : Storage :=
  match st with
  | [] => [(key, value)]
  | (k, v) :: rest => if k = key then (key, value) :: rest else (k, v) :: setItem rest key value

/-- A network request issued by the script. -/
inductive Request where
  | chat (message persona : String)
  | clear
deriving DecidableEq, Repr

/-- The state the handlers read and write. -/
structure AppState where
  chatHistory : List MessageElement
  userInput : String
  personaSelect : SelectElement
  currentModel : String
  typingShown : Bool
  rateWarningShown : Bool
  dataTheme : String
  lastRequestTime : Int
  requestCount : Nat
  currentTheme : String
  localStorage : Storage
  requests : List Request
  warningsRaised : Nat
deriving DecidableEq, Repr

/-- What the document provides before the script runs. -/
structure Page where
  chatHistory : List MessageElement
  userInput : String
  personaSelect : SelectElement
  currentModel : String
  typingShown : Bool
  rateWarningShown : Bool
deriving DecidableEq, Repr

/-! ## Utility functions (lines 43-92) -/

/-- The function `createMessageElement(role, content, model = null)`. -/
def createMessageElement (role : String) (content : Option JSValue) (model : Option JSValue) :
    Except Thrown MessageElement :=
  let avatar := if role = "user" then "Y" else "R"
  match textContentOf content with
  | .error e => .error e
  | .ok text =>
    if truthy model && role = "assistant" then
      match toStr model with
      | .error e => .error e
      | .ok m => .ok { role := role, avatar := avatar, content := text, modelInfo := some ("Model: " ++ m) }
    else
      .ok { role := role, avatar := avatar, content := text, modelInfo := none }

/-- The function `addMessage(role, content, model = null)`. -/
def addMessage (s : AppState) (role : String) (content : Option JSValue) (model : Option JSValue) :
    Except Thrown AppState :=
  match createMessageElement role content model with
  | .error e => .error e
  | .ok el => .ok { s with chatHistory := s.chatHistory ++ [el] }

/-- The function `showTyping()`. -/
def showTyping (s : AppState) : AppState := { s with typingShown := true }

/-- The function `hideTyping()`. -/
def hideTyping (s : AppState) : AppState := { s with typingShown := false }

/-- The function `showRateWarning()`. -/
def showRateWarning (s : AppState) : AppState :=
  { s with rateWarningShown := true, warningsRaised := s.warningsRaised + 1 }

/-- The function `hideRateWarning()`. -/
def hideRateWarning (s : AppState) : AppState := { s with rateWarningShown := false }

/-! ## Form submission (lines 103-155) -/

/-- The rate limiting check, lines 113-123. -/
def rateLimitCheck (s : AppState) (now : Int) : AppState :=
  let s1 :=
    if now - s.lastRequestTime < 60000 / 30 then
      let s2 := { s with requestCount := s.requestCount + 1 }
      if s2.requestCount ≥ 25 then showRateWarning s2 else s2
    else
      hideRateWarning { s with requestCount := 1 }
  { s1 with lastRequestTime := now }

/-- The submit handler up to the `fetch` call (lines 104-136).  An exception leaves
the handler with the state reached so far. -/
def submitHandler (s : AppState) (now : Int) : AppState :=
  let message := jsTrim s.userInput
  let persona := s.personaSelect.value
  if message = "" then s
  else
    let s1 := rateLimitCheck s now
    match addMessage s1 "user" (some (.string message)) none with
    | .error _ => s1
    | .ok s2 =>
      let s3 := showTyping { s2 with userInput := "" }
      { s3 with requests := s3.requests ++ [Request.chat message persona] }

/-- The `catch` block of the submit handler (lines 148-150). -/
def chatCatch (s : AppState) : AppState :=
  let s1 := hideTyping s
  match addMessage s1 "assistant" (some (.string "Error: Failed to fetch response. Please try again.")) none with
  | .error _ => s1
  | .ok s2 => s2

/-- Lines 141-146, run once `response.json()` has produced `data`.  A throw carries
the state reached when it happened. -/
def chatTry (s : AppState) (data : JSValue) : Except AppState AppState :=
  match getProp data "reply" with
  | .error _ => .error s
  | .ok reply =>
    if truthy reply then
      match getProp data "model" with
      | .error _ => .error s
      | .ok model =>
        match addMessage s "assistant" reply model with
        | .error _ => .error s
        | .ok s1 =>
          match toStr model with
          | .error _ => .error s1
          | .ok m => .ok { s1 with currentModel := "Model: " ++ m }
    else
      match getProp data "error" with
      | .error _ => .error s
      | .ok err =>
        match (if truthy err then toStr err else .ok "Unknown error") with
        | .error _ => .error s
        | .ok text =>
          match addMessage s "assistant" (some (.string ("Error: " ++ text))) none with
          | .error _ => .error s
          | .ok s1 => .ok s1

/-- Continuation when the `fetch` promise resolves: line 138, then the handler
waits for `response.json()`. -/
def chatFetchResolved (s : AppState) : AppState := hideTyping s

/-- Continuation when the `fetch` promise rejects: the `catch` block. -/
def chatFetchRejected (s : AppState) : AppState := chatCatch s

/-- Continuation when `response.json()` resolves with `data`. -/
def chatBodyParsed (s : AppState) (data : JSValue) : AppState :=
  match chatTry s data with
  | .ok s1 => s1
  | .error s1 => chatCatch s1

/-- Continuation when `response.json()` rejects (the body is not JSON). -/
def chatBodyFailed (s : AppState) : AppState := chatCatch s

/-! ## Theme toggle (lines 209-215) -/

/-- The click handler of `#theme-toggle`. -/
def themeToggleHandler (s : AppState) : AppState :=
  let theme := if s.currentTheme = "light" then "dark" else "light"
  { s with currentTheme := theme, dataTheme := theme,
           localStorage := setItem s.localStorage "theme" theme }

/-! ## Clear chat (lines 218-244) -/

/-- The click handler of `#clear-chat` up to the `fetch` call. -/
def clearChatHandler (s : AppState) : AppState :=
  { s with requests := s.requests ++ [Request.clear] }

/-- The removal loop of lines 225-230: every `.message` but the first is removed. -/
def removeAfterFirst (messages : List MessageElement) : List MessageElement :=
  (messages.enum.filter (fun p => !(p.1 > 0))).map Prod.snd

/-- Continuation when the `/clear` request resolves (lines 224-238). -/
def clearFetchResolved (s : AppState) : AppState :=
  let s1 := { s with chatHistory := removeAfterFirst s.chatHistory }
  let s2 := { s1 with requestCount := 0, lastRequestTime := 0 }
  let s3 := hideRateWarning s2
  { s3 with currentModel := "Model: Rotating..." }

/-- Continuation when the `/clear` request rejects: the `catch` block (lines 241-242). -/
def clearFetchRejected (s : AppState) : AppState :=
  match addMessage s "assistant"
      (some (.string "Error: Failed to clear chat. Please refresh the page.")) none with
  | .error _ => s
  | .ok s1 => s1

/-! ## Persona selection (lines 247-256) and start-up (lines 14-20) -/

/-- The user picks the option with value `p` in `#persona-select`. -/
def selectPersona (s : AppState) (p : String) : AppState :=
  { s with personaSelect := s.personaSelect.setValue p }

/-- The `change` handler of `#persona-select`. -/
def personaChangeHandler (s : AppState) : AppState :=
  { s with localStorage := setItem s.localStorage "selectedPersona" s.personaSelect.value }

/-- The expression `localStorage.getItem('theme') || 'light'`. -/
def savedTheme (st : Storage) : String :=
  match getItem st "theme" with
  | none => "light"
  | some t => if t != "" then t else "light"

/-- Lines 253-256: the saved persona is applied when it is truthy. -/
def loadSavedPersona (sel : SelectElement) (st : Storage) : SelectElement :=
  match getItem st "selectedPersona" with
  | none => sel
  | some p => if p != "" then sel.setValue p else sel

/-- Running the script on a freshly loaded page with the given storage. -/
def startup (page : Page) (st : Storage) : AppState :=
  { chatHistory := page.chatHistory
    userInput := page.userInput
    personaSelect := loadSavedPersona page.personaSelect st
    currentModel := page.currentModel
    typingShown := page.typingShown
    rateWarningShown := page.rateWarningShown
    dataTheme := savedTheme st
    lastRequestTime := 0
    requestCount := 0
    currentTheme := savedTheme st
    localStorage := st
    requests := []
    warningsRaised := 0 }

/-! ## Scheduling of the continuations of `/chat` requests -/

/-- How a `/chat` request ends: the body parsed to a value, the body could not be
parsed, or the `fetch` promise rejected. -/
inductive ChatOutcome where
  | payload (data : JSValue)
  | unparsable
  | rejected

/-- A continuation of the submit handler being resumed. -/
inductive ChatEvent where
  | fetchResolved
  | fetchRejected
  | bodyParsed (data : JSValue)
  | bodyFailed

/-- Resuming the submit handler. -/
def applyChatEvent (s : AppState) : ChatEvent → AppState
  | .fetchResolved => chatFetchResolved s
  | .fetchRejected => chatFetchRejected s
  | .bodyParsed data => chatBodyParsed s data
  | .bodyFailed => chatBodyFailed s

/-- Resuming continuations in the given order. -/
def runChatEvents (s : AppState) (evs : List ChatEvent) : AppState :=
  evs.foldl applyChatEvent s

/-- The continuations of a request that run before the one settling it. -/
def ChatOutcome.before : ChatOutcome → List ChatEvent
  | .payload _ => [.fetchResolved]
  | .unparsable => [.fetchResolved]
  | .rejected => []

/-- The continuation that settles the request. -/
def ChatOutcome.settling : ChatOutcome → ChatEvent
  | .payload data => .bodyParsed data
  | .unparsable => .bodyFailed
  | .rejected => .fetchRejected

/-- All continuations of one request, in order. -/
def ChatOutcome.events (o : ChatOutcome) : List ChatEvent :=
  o.before ++ [o.settling]

/-- The whole of a request settling with nothing in between. -/
def settle (s : AppState) (o : ChatOutcome) : AppState :=
  runChatEvents s o.events

/-- The user types `text` into `#user-input` and submits the form at time `now`. -/
def send (s : AppState) (text : String) (now : Int) : AppState :=
  submitHandler { s with userInput := text } now

/-- Successive rate limiting checks at the given times. -/
def attempts (s : AppState) (times : List Int) : AppState :=
  times.foldl rateLimitCheck s

/-- Successive send attempts, each a text typed and submitted at a time. -/
def sends (s : AppState) (xs : List (String × Int)) : AppState :=
  xs.foldl (fun st x => send st x.1 x.2) s

/-- The rate limiter as the script and the user see it: `requestCount`,
`lastRequestTime`, whether the warning is shown, and how often it has been raised. -/
def rateView (s : AppState) : Nat × Int × Bool × Nat :=
  (s.requestCount, s.lastRequestTime, s.rateWarningShown, s.warningsRaised)

/-! ## Example states -/

/-- A welcome message as the page might carry it. -/
def welcome : MessageElement :=
  { role := "assistant", avatar := "R", content := "Welcome", modelInfo := none }

/-- An example page with one welcome message and two personas. -/
def examplePage : Page :=
  { chatHistory := [welcome]
    userInput := ""
    personaSelect := { options := ["default", "friendly"], value := "default" }
    currentModel := "Model: Rotating..."
    typingShown := false
    rateWarningShown := false }

/-- The state right after the script has run on the example page with empty storage. -/
def freshState : AppState := startup examplePage []

/-- A state in the middle of a burst: 30 requests counted, the warning shown, one
exchange in the transcript. -/
def busyState : AppState :=
  { freshState with
    chatHistory := [welcome,
      { role := "user", avatar := "Y", content := "hi", modelInfo := none },
      { role := "assistant", avatar := "R", content := "hello", modelInfo := some "Model: m1" }]
    currentModel := "Model: m1"
    rateWarningShown := true
    lastRequestTime := 1700000000000
    requestCount := 30
    warningsRaised := 6 }

/-- A burst of 25 send attempts, 10 ms apart. -/
def burstSends : List (String × Int) :=
  (List.range 25).map (fun i => ("again", 1700000010000 + 10 * (i : Int)))

/-- Four send attempts, 2000 ms or more apart. -/
def spacedSends : List (String × Int) :=
  [("one", 1700000005000), ("two", 1700000007000), ("three", 1700000009500),
   ("four", 1700000020000)]

/-- An example page whose persona control offers an option with an empty value. -/
def blankOptionPage : Page :=
  { examplePage with personaSelect := { options := ["default", ""], value := "default" } }

/-- A payload whose reply is the empty string. -/
def emptyReplyPayload : JSValue :=
  .object [("reply", .string ""), ("model", .string "m1")]

/-- A payload with a reply and a model. -/
def replyPayload : JSValue :=
  .object [("reply", .string "Namaste"), ("model", .string "m1")]

/-- Another payload with a reply and a model. -/
def otherReplyPayload : JSValue :=
  .object [("reply", .string "Shubh ratri"), ("model", .string "m2")]

/-- A payload with an error text and no reply. -/
def errorPayload : JSValue :=
  .object [("error", .string "quota exceeded")]

/-! ## Rate limiter: helper lemmas -/

theorem minInterval_eq : (60000 : Int) / 30 = 2000 := by decide

theorem rateLimitCheck_reset (s : AppState) (now : Int) (h : now - s.lastRequestTime ≥ 2000) :
    rateLimitCheck s now =
      { s with requestCount := 1, rateWarningShown := false, lastRequestTime := now } := by
  have h2 : ¬ (now - s.lastRequestTime < 2000) := by omega
  simp [rateLimitCheck, minInterval_eq, h2, hideRateWarning]

theorem rateLimitCheck_quiet (s : AppState) (now : Int) (h : now - s.lastRequestTime < 2000)
    (hc : s.requestCount + 1 < 25) :
    rateLimitCheck s now =
      { s with requestCount := s.requestCount + 1, lastRequestTime := now } := by
  have h2 : ¬ (25 ≤ s.requestCount + 1) := by omega
  simp [rateLimitCheck, minInterval_eq, h, h2]

theorem rateLimitCheck_raise (s : AppState) (now : Int) (h : now - s.lastRequestTime < 2000)
    (hc : 25 ≤ s.requestCount + 1) :
    rateLimitCheck s now =
      { s with requestCount := s.requestCount + 1, rateWarningShown := true,
               warningsRaised := s.warningsRaised + 1, lastRequestTime := now } := by
  simp [rateLimitCheck, minInterval_eq, h, hc, showRateWarning]

theorem attempts_cons (s : AppState) (t : Int) (ts : List Int) :
    attempts s (t :: ts) = attempts (rateLimitCheck s t) ts := rfl

theorem reset_fields (s : AppState) (now : Int) (h : now - s.lastRequestTime ≥ 2000) :
    (rateLimitCheck s now).requestCount = 1 ∧
    (rateLimitCheck s now).rateWarningShown = false ∧
    (rateLimitCheck s now).warningsRaised = s.warningsRaised ∧
    (rateLimitCheck s now).lastRequestTime = now := by
  rw [rateLimitCheck_reset s now h]; simp

theorem quiet_fields (s : AppState) (now : Int) (h : now - s.lastRequestTime < 2000)
    (hc : s.requestCount + 1 < 25) :
    (rateLimitCheck s now).requestCount = s.requestCount + 1 ∧
    (rateLimitCheck s now).rateWarningShown = s.rateWarningShown ∧
    (rateLimitCheck s now).warningsRaised = s.warningsRaised ∧
    (rateLimitCheck s now).lastRequestTime = now := by
  rw [rateLimitCheck_quiet s now h hc]; simp

theorem raise_fields (s : AppState) (now : Int) (h : now - s.lastRequestTime < 2000)
    (hc : 25 ≤ s.requestCount + 1) :
    (rateLimitCheck s now).requestCount = s.requestCount + 1 ∧
    (rateLimitCheck s now).rateWarningShown = true ∧
    (rateLimitCheck s now).warningsRaised = s.warningsRaised + 1 ∧
    (rateLimitCheck s now).lastRequestTime = now := by
  rw [rateLimitCheck_raise s now h hc]; simp

/-- Attempts that all fall in a window `[lo, hi]` shorter than the interval, after an
attempt in that window: the counter grows by one each time, and below the ceiling
the warning is neither raised nor changed. -/
theorem attempts_in_window (lo hi : Int) (hw : hi - lo < 2000) :
    ∀ (ts : List Int) (s : AppState), (∀ x ∈ ts, lo ≤ x ∧ x ≤ hi) →
      lo ≤ s.lastRequestTime → s.lastRequestTime ≤ hi → s.requestCount + ts.length < 25 →
      (attempts s ts).requestCount = s.requestCount + ts.length ∧
      (attempts s ts).warningsRaised = s.warningsRaised ∧
      (attempts s ts).rateWarningShown = s.rateWarningShown ∧
      lo ≤ (attempts s ts).lastRequestTime ∧ (attempts s ts).lastRequestTime ≤ hi := by
  intro ts
  induction ts with
  | nil => intro s _ h1 h2 _; simp [attempts, h1, h2]
  | cons t ts ih =>
    intro s hmem h1 h2 hc
    have ht := hmem t (List.mem_cons_self _ _)
    simp only [List.length_cons] at hc
    obtain ⟨q1, q2, q3, q4⟩ := quiet_fields s t (by omega) (by omega)
    have := ih (rateLimitCheck s t) (fun x hx => hmem x (List.mem_cons_of_mem _ hx))
      (by rw [q4]; exact ht.1) (by rw [q4]; exact ht.2) (by rw [q1]; omega)
    rw [attempts_cons]
    rw [q1, q2, q3] at this
    simp only [List.length_cons]
    refine ⟨?_, this.2.1, this.2.2.1, this.2.2.2.1, this.2.2.2.2⟩
    rw [this.1]; omega

/-! ## Transcript: helper lemmas -/

theorem rateLimitCheck_frame (s : AppState) (now : Int) :
    (rateLimitCheck s now).chatHistory = s.chatHistory ∧
    (rateLimitCheck s now).requests = s.requests ∧
    (rateLimitCheck s now).userInput = s.userInput ∧
    (rateLimitCheck s now).personaSelect = s.personaSelect := by
  by_cases h : now - s.lastRequestTime ≥ 2000
  · rw [rateLimitCheck_reset s now h]; simp
  · have h1 : now - s.lastRequestTime < 2000 := by omega
    by_cases hc : s.requestCount + 1 ≥ 25
    · rw [rateLimitCheck_raise s now h1 hc]; simp
    · rw [rateLimitCheck_quiet s now h1 (by omega)]; simp

theorem addMessage_text (s : AppState) (role text : String) :
    addMessage s role (some (.string text)) none =
      .ok { s with chatHistory := s.chatHistory ++
        [{ role := role, avatar := if role = "user" then "Y" else "R",
           content := text, modelInfo := none }] } := by
  simp [addMessage, createMessageElement, textContentOf, JSValue.toStr, truthy]

theorem submitHandler_nonempty (s : AppState) (now : Int) (h : jsTrim s.userInput ≠ "") :
    submitHandler s now =
      { rateLimitCheck s now with
        chatHistory := s.chatHistory ++
          [{ role := "user", avatar := "Y", content := jsTrim s.userInput, modelInfo := none }]
        userInput := ""
        typingShown := true
        requests := s.requests ++ [Request.chat (jsTrim s.userInput) s.personaSelect.value] } := by
  obtain ⟨f1, f2, _, _⟩ := rateLimitCheck_frame s now
  simp [submitHandler, h, addMessage_text, showTyping, f1, f2]

theorem chatCatch_eq (s : AppState) :
    chatCatch s =
      { s with
        typingShown := false
        chatHistory := s.chatHistory ++
          [{ role := "assistant", avatar := "R",
             content := "Error: Failed to fetch response. Please try again.",
             modelInfo := none }] } := by
  simp [chatCatch, addMessage_text, hideTyping]

theorem toStr_of_falsy (v : Option JSValue) (h : truthy v = false) : ∃ m, toStr v = .ok m := by
  cases v with
  | none => exact ⟨_, rfl⟩
  | some x =>
    cases x with
    | null => exact ⟨_, rfl⟩
    | bool b => exact ⟨_, rfl⟩
    | number n => exact ⟨_, rfl⟩
    | string t => exact ⟨_, rfl⟩
    | array xs => simp [truthy, JSValue.truthy] at h
    | object props => simp [truthy, JSValue.truthy] at h

/-- The continuation run on a parsed body appends one assistant entry, determined by
the payload alone; it may also set the model line and hide the typing indicator. -/
theorem chatBodyParsed_shape (data : JSValue) :
    ∃ (e : MessageElement) (model : Option String) (hide : Bool), e.role = "assistant" ∧
      ∀ st : AppState, chatBodyParsed st data =
        { st with
          chatHistory := st.chatHistory ++ [e]
          currentModel := model.getD st.currentModel
          typingShown := if hide then false else st.typingShown } := by
  have hcatch : ∃ (e : MessageElement) (model : Option String) (hide : Bool),
      e.role = "assistant" ∧ ∀ st : AppState, chatCatch st =
        { st with
          chatHistory := st.chatHistory ++ [e]
          currentModel := model.getD st.currentModel
          typingShown := if hide then false else st.typingShown } :=
    ⟨{ role := "assistant", avatar := "R",
       content := "Error: Failed to fetch response. Please try again.", modelInfo := none },
      none, true, rfl, fun st => by rw [chatCatch_eq]; simp⟩
  rcases h1 : getProp data "reply" with _ | reply
  · obtain ⟨e, m, hd, he, hst⟩ := hcatch
    exact ⟨e, m, hd, he, fun st => by simp [chatBodyParsed, chatTry, h1, hst]⟩
  · by_cases ht : truthy reply = true
    · rcases h2 : getProp data "model" with _ | model
      · obtain ⟨e, m, hd, he, hst⟩ := hcatch
        exact ⟨e, m, hd, he, fun st => by simp [chatBodyParsed, chatTry, h1, ht, h2, hst]⟩
      · rcases h3 : textContentOf reply with _ | text
        · obtain ⟨e, m, hd, he, hst⟩ := hcatch
          exact ⟨e, m, hd, he, fun st => by
            simp [chatBodyParsed, chatTry, h1, ht, h2, addMessage, createMessageElement, h3, hst]⟩
        · by_cases hm : truthy model = true
          · rcases h4 : toStr model with _ | m
            · obtain ⟨e, m, hd, he, hst⟩ := hcatch
              exact ⟨e, m, hd, he, fun st => by
                simp [chatBodyParsed, chatTry, h1, ht, h2, addMessage, createMessageElement,
                  h3, hm, h4, hst]⟩
            · exact ⟨{ role := "assistant", avatar := "R", content := text,
                       modelInfo := some ("Model: " ++ m) }, some ("Model: " ++ m), false, rfl,
                fun st => by
                  simp [chatBodyParsed, chatTry, h1, ht, h2, addMessage, createMessageElement,
                    h3, hm, h4]⟩
          · obtain ⟨m, h4⟩ := toStr_of_falsy model (by simpa using hm)
            exact ⟨{ role := "assistant", avatar := "R", content := text, modelInfo := none },
              some ("Model: " ++ m), false, rfl,
              fun st => by
                simp [chatBodyParsed, chatTry, h1, ht, h2, addMessage, createMessageElement,
                  h3, hm, h4]⟩
    · rcases h2 : getProp data "error" with _ | err
      · obtain ⟨e, m, hd, he, hst⟩ := hcatch
        exact ⟨e, m, hd, he, fun st => by simp [chatBodyParsed, chatTry, h1, ht, h2, hst]⟩
      · rcases h3 : (if truthy err then toStr err else .ok "Unknown error") with _ | text
        · obtain ⟨e, m, hd, he, hst⟩ := hcatch
          exact ⟨e, m, hd, he, fun st => by
            simp only [chatBodyParsed, chatTry, h1, ht, h2, h3, hst]; simp⟩
        · exact ⟨{ role := "assistant", avatar := "R", content := "Error: " ++ text,
                   modelInfo := none }, none, false, rfl,
            fun st => by
              simp only [chatBodyParsed, chatTry, h1, ht, h2, h3, addMessage_text]; simp⟩

theorem applyChatEvent_shape (ev : ChatEvent) :
    ∃ (es : List MessageElement) (model : Option String) (hide : Bool),
      (∀ e ∈ es, e.role = "assistant") ∧
      ∀ st : AppState, applyChatEvent st ev =
        { st with
          chatHistory := st.chatHistory ++ es
          currentModel := model.getD st.currentModel
          typingShown := if hide then false else st.typingShown } := by
  cases ev with
  | fetchResolved =>
    exact ⟨[], none, true, by simp, fun st => by simp [applyChatEvent, chatFetchResolved, hideTyping]⟩
  | fetchRejected =>
    exact ⟨[⟨"assistant", "R", "Error: Failed to fetch response. Please try again.", none⟩], none, true, by simp, fun st => by
      simp [applyChatEvent, chatFetchRejected, chatCatch_eq]⟩
  | bodyParsed data =>
    obtain ⟨e, m, hd, he, hst⟩ := chatBodyParsed_shape data
    exact ⟨[e], m, hd, by simpa using he, fun st => by simp [applyChatEvent, hst]⟩
  | bodyFailed =>
    exact ⟨[⟨"assistant", "R", "Error: Failed to fetch response. Please try again.", none⟩], none, true, by simp, fun st => by
      simp [applyChatEvent, chatBodyFailed, chatCatch_eq]⟩

/-- The continuation settling a request appends one assistant entry, fixed by the
outcome, whatever the state it resumes in, and touches neither the request log nor
the rate limiter. -/
theorem settling_appends (o : ChatOutcome) :
    ∃ e : MessageElement, e.role = "assistant" ∧ ∀ st : AppState,
      (applyChatEvent st o.settling).chatHistory = st.chatHistory ++ [e] ∧
      (applyChatEvent st o.settling).requests = st.requests ∧
      (applyChatEvent st o.settling).requestCount = st.requestCount ∧
      (applyChatEvent st o.settling).lastRequestTime = st.lastRequestTime ∧
      (applyChatEvent st o.settling).rateWarningShown = st.rateWarningShown := by
  cases o with
  | payload data =>
    obtain ⟨e, m, hd, he, hst⟩ := chatBodyParsed_shape data
    exact ⟨e, he, fun st => by simp [ChatOutcome.settling, applyChatEvent, hst]⟩
  | unparsable =>
    exact ⟨⟨"assistant", "R", "Error: Failed to fetch response. Please try again.", none⟩, rfl, fun st => by
      simp [ChatOutcome.settling, applyChatEvent, chatBodyFailed, chatCatch_eq]⟩
  | rejected =>
    exact ⟨⟨"assistant", "R", "Error: Failed to fetch response. Please try again.", none⟩, rfl, fun st => by
      simp [ChatOutcome.settling, applyChatEvent, chatFetchRejected, chatCatch_eq]⟩

theorem mem_before (o : ChatOutcome) (ev : ChatEvent) (h : ev ∈ o.before) :
    ev = ChatEvent.fetchResolved := by
  cases o <;> simp [ChatOutcome.before] at h <;> exact h

theorem runChatEvents_append (st : AppState) (l1 l2 : List ChatEvent) :
    runChatEvents st (l1 ++ l2) = runChatEvents (runChatEvents st l1) l2 := by
  simp [runChatEvents, List.foldl_append]

/-- Continuations that only follow the resolution of `fetch` change neither the
transcript nor the request log. -/
theorem run_fetchResolved (l : List ChatEvent) (hl : ∀ ev ∈ l, ev = ChatEvent.fetchResolved) :
    ∀ st : AppState, (runChatEvents st l).chatHistory = st.chatHistory ∧
      (runChatEvents st l).requests = st.requests := by
  induction l with
  | nil => intro st; simp [runChatEvents]
  | cons ev rest ih =>
    intro st
    have hev := hl ev (List.mem_cons_self _ _)
    subst hev
    have := ih (fun x hx => hl x (List.mem_cons_of_mem _ hx))
      (applyChatEvent st ChatEvent.fetchResolved)
    simp only [runChatEvents, List.foldl_cons] at this ⊢
    rw [this.1, this.2]
    simp [applyChatEvent, chatFetchResolved, hideTyping]

theorem send_nonempty (s : AppState) (text : String) (now : Int) (h : jsTrim text ≠ "") :
    (send s text now).chatHistory = s.chatHistory ++
        [{ role := "user", avatar := "Y", content := jsTrim text, modelInfo := none }] ∧
    (send s text now).requests = s.requests ++
        [Request.chat (jsTrim text) s.personaSelect.value] := by
  unfold send
  rw [submitHandler_nonempty _ now (by simpa using h)]
  simp

theorem jsTrim_whitespace (str : String) (h : ∀ c ∈ str.data, isJSWhitespace c = true) :
    jsTrim str = "" := by
  unfold jsTrim
  rw [List.dropWhile_eq_nil_iff.mpr h]
  rfl

theorem rateLimitCheck_eq (s : AppState) (now : Int) :
    rateLimitCheck s now =
      { s with
        lastRequestTime := now
        requestCount := if now - s.lastRequestTime ≥ 2000 then 1 else s.requestCount + 1
        rateWarningShown :=
          if now - s.lastRequestTime ≥ 2000 then false
          else if s.requestCount + 1 ≥ 25 then true else s.rateWarningShown
        warningsRaised :=
          if now - s.lastRequestTime ≥ 2000 then s.warningsRaised
          else if s.requestCount + 1 ≥ 25 then s.warningsRaised + 1 else s.warningsRaised } := by
  by_cases h : now - s.lastRequestTime ≥ 2000
  · rw [rateLimitCheck_reset s now h]; simp [h]
  · have h1 : now - s.lastRequestTime < 2000 := by omega
    by_cases hc : s.requestCount + 1 ≥ 25
    · rw [rateLimitCheck_raise s now h1 hc]; simp [h, hc]
    · rw [rateLimitCheck_quiet s now h1 (by omega)]; simp [h, hc]

theorem rateLimitCheck_view (a b : AppState) (t : Int) (h : rateView a = rateView b) :
    rateView (rateLimitCheck a t) = rateView (rateLimitCheck b t) := by
  rw [rateLimitCheck_eq, rateLimitCheck_eq]
  simp only [rateView, Prod.mk.injEq] at h ⊢
  obtain ⟨h1, h2, h3, h4⟩ := h
  simp [h1, h2, h3, h4]

theorem send_view (a b : AppState) (text : String) (t : Int) (hne : jsTrim text ≠ "")
    (h : rateView a = rateView b) :
    rateView (send a text t) = rateView (rateLimitCheck b t) := by
  rw [← rateLimitCheck_view { a with userInput := text } b t (by simpa [rateView] using h)]
  unfold send
  rw [submitHandler_nonempty _ t (by simpa using hne)]
  simp [rateView]

theorem sends_view (xs : List (String × Int)) (hne : ∀ x ∈ xs, jsTrim x.1 ≠ "") :
    ∀ a b : AppState, rateView a = rateView b →
      rateView (sends a xs) = rateView (attempts b (xs.map Prod.snd)) := by
  induction xs with
  | nil => intro a b h; simpa [sends, attempts] using h
  | cons x rest ih =>
    intro a b h
    have hx := hne x (List.mem_cons_self _ _)
    have := ih (fun y hy => hne y (List.mem_cons_of_mem _ hy)) (send a x.1 x.2)
      (rateLimitCheck b x.2) (send_view a b x.1 x.2 hx h)
    simpa [sends, attempts] using this

/-! ## Rate limiter: the claims -/

/-- C10: one rate limiting check at time `now` yields exactly this state: when
`now - lastRequestTime >= 2000` the count becomes 1 and the warning is cleared;
otherwise the count grows by one and the warning is raised when the new count has
reached 25 and left as it was when not; `lastRequestTime` becomes `now` in both
branches, so the next comparison is against this attempt. -/
theorem C10_rate_limit_step (s : AppState) (now : Int) :
    rateLimitCheck s now =
      { s with
        lastRequestTime := now
        requestCount := if now - s.lastRequestTime ≥ 2000 then 1 else s.requestCount + 1
        rateWarningShown :=
          if now - s.lastRequestTime ≥ 2000 then false
          else if s.requestCount + 1 ≥ 25 then true else s.rateWarningShown
        warningsRaised :=
          if now - s.lastRequestTime ≥ 2000 then s.warningsRaised
          else if s.requestCount + 1 ≥ 25 then s.warningsRaised + 1 else s.warningsRaised } :=
  rateLimitCheck_eq s now

theorem attempts_spaced (s : AppState) (times : List Int)
    (hspaced : List.Chain (fun a b => b - a ≥ 2000) s.lastRequestTime times)
    (k : Nat) (hk : 0 < k) (hle : k ≤ times.length) :
    (attempts s (times.take k)).requestCount = 1 ∧
    (attempts s (times.take k)).rateWarningShown = false ∧
    (attempts s (times.take k)).warningsRaised = s.warningsRaised := by
  induction times generalizing s k with
  | nil => simp at hle; omega
  | cons t ts ih =>
    obtain ⟨k, rfl⟩ : ∃ j, k = j + 1 := ⟨k - 1, by omega⟩
    rw [List.chain_cons] at hspaced
    obtain ⟨r1, r2, r3, r4⟩ := reset_fields s t hspaced.1
    rw [List.take_succ_cons, attempts_cons]
    rcases Nat.eq_zero_or_pos k with h0 | hpos
    · subst h0; exact ⟨r1, r2, r3⟩
    · have := ih (rateLimitCheck s t) (by rw [r4]; exact hspaced.2) k hpos
        (by simpa using hle)
      rw [r3] at this
      exact this

theorem attempts_burst (s : AppState) (times : List Int) (t1 t25 : Int)
    (hlen : times.length = 25) (hmono : times.Pairwise (fun a b => a ≤ b))
    (hfirst : times.head? = some t1) (hlast : times.getLast? = some t25)
    (hwin : t25 - t1 < 2000) (hstart : t1 - s.lastRequestTime ≥ 2000)
    (k : Nat) (hk : 1 ≤ k) (hle : k ≤ 25) :
    (attempts s (times.take k)).requestCount = k ∧
    (attempts s (times.take k)).warningsRaised
      = s.warningsRaised + (if k = 25 then 1 else 0) ∧
    (attempts s (times.take k)).rateWarningShown = decide (k = 25) := by
  obtain ⟨rest, rfl⟩ : ∃ rest, times = t1 :: rest := by
    cases times with
    | nil => simp at hlen
    | cons a r => simp at hfirst; exact ⟨r, by rw [hfirst]⟩
  have hrl : rest.length = 24 := by simpa using hlen
  have hlo : ∀ x ∈ rest, t1 ≤ x := (List.pairwise_cons.mp hmono).1
  have hhi : ∀ x ∈ rest, x ≤ t25 := by
    obtain ⟨ys, hys⟩ : ∃ ys, t1 :: rest = ys ++ [t25] := by
      have := List.getLast?_eq_some_iff.mp hlast
      exact this
    intro x hx
    have hxm : x ∈ ys ++ [t25] := by rw [← hys]; exact List.mem_cons_of_mem _ hx
    rcases List.mem_append.mp hxm with h | h
    · rw [hys] at hmono
      exact (List.pairwise_append.mp hmono).2.2 x h t25 (by simp)
    · simp at h; omega
  have hne : rest ≠ [] := by intro h; simp [h] at hrl
  have ht25 : t1 ≤ t25 := by
    obtain ⟨a, r, rfl⟩ := List.exists_cons_of_ne_nil hne
    have h1 := hlo a (by simp)
    have h2 := hhi a (by simp)
    omega
  obtain ⟨k, rfl⟩ : ∃ j, k = j + 1 := ⟨k - 1, by omega⟩
  obtain ⟨r1, r2, r3, r4⟩ := reset_fields s t1 hstart
  rw [List.take_succ_cons, attempts_cons]
  generalize rateLimitCheck s t1 = s1 at r1 r2 r3 r4 ⊢
  have hmem : ∀ n, ∀ x ∈ rest.take n, t1 ≤ x ∧ x ≤ t25 := fun n x hx =>
    ⟨hlo x (List.mem_of_mem_take hx), hhi x (List.mem_of_mem_take hx)⟩
  rcases Nat.lt_or_ge k 24 with hlt | hge
  · have hl : (rest.take k).length = k := by simp [List.length_take]; omega
    have := attempts_in_window t1 t25 hwin (rest.take k) s1 (hmem k)
      (by omega) (by omega) (by rw [r1, hl]; omega)
    rw [hl, r1, r2, r3] at this
    have hk25 : ¬ (k + 1 = 25) := by omega
    simp only [hk25, if_false, decide_False, Nat.add_zero]
    exact ⟨by rw [this.1]; omega, this.2.1, this.2.2.1⟩
  · have hk24 : k = 24 := by omega
    subst hk24
    have hl : (rest.take 23).length = 23 := by simp [List.length_take]; omega
    have h23 := attempts_in_window t1 t25 hwin (rest.take 23) s1 (hmem 23)
      (by omega) (by omega) (by rw [r1, hl]; omega)
    rw [hl, r1, r2, r3] at h23
    obtain ⟨x, hx⟩ : ∃ x, rest.take 24 = rest.take 23 ++ [x] := by
      have h24 : 23 < rest.length := by omega
      exact ⟨rest.get ⟨23, h24⟩, by
        rw [List.take_succ, List.getElem?_eq_getElem h24]; rfl⟩
    have hxm : x ∈ rest.take 24 := by rw [hx]; simp
    have hxb := hmem 24 x hxm
    have hfold : attempts s1 (rest.take 24) = rateLimitCheck (attempts s1 (rest.take 23)) x := by
      rw [hx]; simp [attempts, List.foldl_append]
    rw [hfold]
    generalize attempts s1 (rest.take 23) = s23 at h23 ⊢
    obtain ⟨q1, q2, q3, _⟩ := raise_fields s23 x (by omega) (by omega)
    refine ⟨by rw [q1, h23.1], by rw [q3, h23.2.1]; simp, by rw [q2]; simp⟩

/-- C4: for send attempts each at least 2000 ms after the previous one, the first at
least 2000 ms after the stored `lastRequestTime`, after every attempt `requestCount`
is 1, the warning is hidden, and `showRateWarning` has not been called. -/
theorem C4_spaced_attempts (s : AppState) (xs : List (String × Int))
    (hne : ∀ x ∈ xs, jsTrim x.1 ≠ "")
    (hspaced : List.Chain (fun a b => b - a ≥ 2000) s.lastRequestTime (xs.map Prod.snd))
    (k : Nat) (hk : 0 < k) (hle : k ≤ xs.length) :
    (sends s (xs.take k)).requestCount = 1 ∧
    (sends s (xs.take k)).rateWarningShown = false ∧
    (sends s (xs.take k)).warningsRaised = s.warningsRaised := by
  have hv := sends_view (xs.take k) (fun x hx => hne x (List.mem_of_mem_take hx)) s s rfl
  have ha := attempts_spaced s (xs.map Prod.snd) hspaced k hk (by simpa using hle)
  rw [List.map_take] at hv
  simp only [rateView, Prod.mk.injEq] at hv
  obtain ⟨h1, _, h3, h4⟩ := hv
  exact ⟨h1.trans ha.1, h3.trans ha.2.1, h4.trans ha.2.2⟩

/-- C3: 25 send attempts with non-decreasing timestamps inside one window
(`t25 - t1 < 2000`), the first starting the window: after the `k`-th attempt
`requestCount = k`; `showRateWarning` is called by the 25th attempt and by none of
the first 24, and the warning is hidden after each of the first 24 and shown after
the 25th. -/
theorem C3_burst_of_25 (s : AppState) (xs : List (String × Int)) (t1 t25 : Int)
    (hne : ∀ x ∈ xs, jsTrim x.1 ≠ "")
    (hlen : xs.length = 25) (hmono : (xs.map Prod.snd).Pairwise (fun a b => a ≤ b))
    (hfirst : (xs.map Prod.snd).head? = some t1) (hlast : (xs.map Prod.snd).getLast? = some t25)
    (hwin : t25 - t1 < 2000) (hstart : t1 - s.lastRequestTime ≥ 2000)
    (k : Nat) (hk : 1 ≤ k) (hle : k ≤ 25) :
    (sends s (xs.take k)).requestCount = k ∧
    (sends s (xs.take k)).warningsRaised = s.warningsRaised + (if k = 25 then 1 else 0) ∧
    (sends s (xs.take k)).rateWarningShown = decide (k = 25) := by
  have hv := sends_view (xs.take k) (fun x hx => hne x (List.mem_of_mem_take hx)) s s rfl
  have ha := attempts_burst s (xs.map Prod.snd) t1 t25 (by simpa using hlen) hmono hfirst hlast
    hwin hstart k hk hle
  rw [List.map_take] at hv
  simp only [rateView, Prod.mk.injEq] at hv
  obtain ⟨h1, _, h3, h4⟩ := hv
  exact ⟨h1.trans ha.1, h4.trans ha.2.1, h3.trans ha.2.2⟩

/-- Witness of C4 on four send attempts spaced 2000 ms or more, starting with the
warning shown. -/
theorem C4_spaced_attempts_witness :
    (sends busyState (spacedSends.take 3)).requestCount = 1 ∧
    (sends busyState (spacedSends.take 3)).rateWarningShown = false ∧
    (sends busyState (spacedSends.take 3)).warningsRaised = busyState.warningsRaised :=
  C4_spaced_attempts busyState spacedSends (by decide) (by simp [spacedSends, busyState]) 3
    (by decide) (by decide)

/-- Witness of C3 on 25 send attempts 10 ms apart, at the 25th attempt. -/
theorem C3_burst_of_25_witness :
    (sends busyState (burstSends.take 25)).requestCount = 25 ∧
    (sends busyState (burstSends.take 25)).warningsRaised
      = busyState.warningsRaised + (if 25 = 25 then 1 else 0) ∧
    (sends busyState (burstSends.take 25)).rateWarningShown = decide (25 = 25) :=
  C3_burst_of_25 busyState burstSends 1700000010000 1700000010240 (by decide) (by decide)
    (by decide) (by decide) (by decide) (by decide) (by decide) 25 (by decide) (by decide)

/-! ## Transcript: the claims -/

/-- C1: with a non-empty trimmed input, in any rate-limit state, the submit handler
appends one `user` entry carrying the trimmed text at the end of the transcript and
issues one `POST /chat` request; whatever the outcome of the request (a parsed
payload, an unparsable body, a rejection), the continuations before the settling one
leave the transcript alone and the settling one appends one `assistant` entry to the
transcript it finds, issuing no request. -/
theorem C1_submit_appends (s : AppState) (now : Int) (h : jsTrim s.userInput ≠ "") :
    (submitHandler s now).chatHistory = s.chatHistory ++
        [{ role := "user", avatar := "Y", content := jsTrim s.userInput, modelInfo := none }] ∧
    (submitHandler s now).requests = s.requests ++
        [Request.chat (jsTrim s.userInput) s.personaSelect.value] ∧
    ∀ o : ChatOutcome, ∃ e : MessageElement, e.role = "assistant" ∧ ∀ st : AppState,
      (runChatEvents st o.before).chatHistory = st.chatHistory ∧
      (runChatEvents st o.before).requests = st.requests ∧
      (applyChatEvent st o.settling).chatHistory = st.chatHistory ++ [e] ∧
      (applyChatEvent st o.settling).requests = st.requests ∧
      (settle st o).chatHistory = st.chatHistory ++ [e] ∧
      (settle st o).requests = st.requests := by
  rw [submitHandler_nonempty s now h]
  refine ⟨rfl, rfl, fun o => ?_⟩
  obtain ⟨e, he, hst⟩ := settling_appends o
  refine ⟨e, he, fun st => ?_⟩
  have hb := run_fetchResolved o.before (mem_before o) st
  have h1 := hst st
  have h2 := hst (runChatEvents st o.before)
  refine ⟨hb.1, hb.2, h1.1, h1.2.1, ?_, ?_⟩
  · simp only [settle, ChatOutcome.events, runChatEvents_append]
    simp only [runChatEvents, List.foldl_cons, List.foldl_nil] at h2 hb ⊢
    rw [h2.1, hb.1]
  · simp only [settle, ChatOutcome.events, runChatEvents_append]
    simp only [runChatEvents, List.foldl_cons, List.foldl_nil] at h2 hb ⊢
    rw [h2.2.1, hb.2]

/-- Witness of C1 in the middle of a burst, the warning shown. -/
theorem C1_submit_appends_witness :
    jsTrim ({ busyState with userInput := "  tell me a joke " } : AppState).userInput ≠ "" ∧
    (submitHandler { busyState with userInput := "  tell me a joke " } 1700000000500).chatHistory =
      busyState.chatHistory ++
        [{ role := "user", avatar := "Y", content := "tell me a joke", modelInfo := none }] :=
  ⟨by decide, (C1_submit_appends { busyState with userInput := "  tell me a joke " } 1700000000500
    (by decide)).1⟩

/-- C2: an input that is empty or made of whitespace only leaves the whole state as
it was: the transcript, the request log (no request is issued), `requestCount`,
`lastRequestTime` and the warning. -/
theorem C2_blank_input (s : AppState) (now : Int)
    (h : ∀ c ∈ s.userInput.data, isJSWhitespace c = true) :
    submitHandler s now = s := by
  simp [submitHandler, jsTrim_whitespace s.userInput h]

/-- Witness of C2 on an input of blanks, a tab and a line feed. -/
theorem C2_blank_input_witness :
    submitHandler { busyState with userInput := "  \t\n " } 1700000000500 =
      { busyState with userInput := "  \t\n " } :=
  C2_blank_input { busyState with userInput := "  \t\n " } 1700000000500 (by decide)

theorem parsed_reply (st : AppState) (data : JSValue) (reply model : Option JSValue)
    (text m : String) (h1 : getProp data "reply" = .ok reply) (h2 : truthy reply = true)
    (h3 : getProp data "model" = .ok model) (h4 : textContentOf reply = .ok text)
    (h5 : toStr model = .ok m) :
    (chatBodyParsed st data).chatHistory = st.chatHistory ++
      [{ role := "assistant", avatar := "R", content := text,
         modelInfo := if truthy model then some ("Model: " ++ m) else none }] := by
  by_cases hmt : truthy model = true <;>
    simp [chatBodyParsed, chatTry, h1, h2, h3, addMessage, createMessageElement, h4, h5, hmt]

theorem parsed_error (st : AppState) (data : JSValue) (reply err : Option JSValue)
    (text : String) (h1 : getProp data "reply" = .ok reply) (h2 : truthy reply = false)
    (h3 : getProp data "error" = .ok err) (h4 : truthy err = true) (h5 : toStr err = .ok text) :
    (chatBodyParsed st data).chatHistory = st.chatHistory ++
      [{ role := "assistant", avatar := "R", content := "Error: " ++ text,
         modelInfo := none }] := by
  simp [chatBodyParsed, chatTry, h1, h2, h3, h4, h5, addMessage_text]

theorem parsed_unknown (st : AppState) (data : JSValue) (reply err : Option JSValue)
    (h1 : getProp data "reply" = .ok reply) (h2 : truthy reply = false)
    (h3 : getProp data "error" = .ok err) (h4 : truthy err = false) :
    (chatBodyParsed st data).chatHistory = st.chatHistory ++
      [{ role := "assistant", avatar := "R", content := "Error: Unknown error",
         modelInfo := none }] := by
  simp [chatBodyParsed, chatTry, h1, h2, h3, h4, addMessage_text]

theorem parsed_null (st : AppState) :
    (chatBodyParsed st JSValue.null).chatHistory = st.chatHistory ++
      [⟨"assistant", "R", "Error: Failed to fetch response. Please try again.", none⟩] := by
  simp [chatBodyParsed, chatTry, getProp, chatCatch_eq]

theorem parsed_reply_throws (st : AppState) (data : JSValue) (reply model : Option JSValue)
    (h1 : getProp data "reply" = .ok reply) (h2 : truthy reply = true)
    (h3 : getProp data "model" = .ok model)
    (h4 : textContentOf reply = .error .typeError ∨
      (truthy model = true ∧ toStr model = .error .typeError)) :
    (chatBodyParsed st data).chatHistory = st.chatHistory ++
      [⟨"assistant", "R", "Error: Failed to fetch response. Please try again.", none⟩] := by
  rcases h4 with h4 | ⟨h4, h5⟩
  · simp [chatBodyParsed, chatTry, h1, h2, h3, addMessage, createMessageElement, h4,
      chatCatch_eq]
  · rcases h6 : textContentOf reply with e | text
    · simp [chatBodyParsed, chatTry, h1, h2, h3, addMessage, createMessageElement, h6,
        chatCatch_eq]
    · simp [chatBodyParsed, chatTry, h1, h2, h3, addMessage, createMessageElement, h6, h4, h5,
        chatCatch_eq]

theorem parsed_error_throws (st : AppState) (data : JSValue) (reply err : Option JSValue)
    (h1 : getProp data "reply" = .ok reply) (h2 : truthy reply = false)
    (h3 : getProp data "error" = .ok err) (h4 : truthy err = true)
    (h5 : toStr err = .error .typeError) :
    (chatBodyParsed st data).chatHistory = st.chatHistory ++
      [⟨"assistant", "R", "Error: Failed to fetch response. Please try again.", none⟩] := by
  simp [chatBodyParsed, chatTry, h1, h2, h3, h4, h5, chatCatch_eq]

/-- The entry appended by the continuation settling a request, by content, for each
outcome of the request. -/
theorem settling_content (o : ChatOutcome) :
    ∃ e : MessageElement,
      e.role = "assistant" ∧
      (∀ st : AppState, (applyChatEvent st o.settling).chatHistory = st.chatHistory ++ [e]) ∧
      (∀ (data : JSValue) (reply model : Option JSValue) (text m : String),
        o = ChatOutcome.payload data → getProp data "reply" = .ok reply → truthy reply = true →
        getProp data "model" = .ok model → textContentOf reply = .ok text → toStr model = .ok m →
        e = { role := "assistant", avatar := "R", content := text,
                  modelInfo := if truthy model then some ("Model: " ++ m) else none }) ∧
      (∀ (data : JSValue) (reply err : Option JSValue) (text : String),
        o = ChatOutcome.payload data → getProp data "reply" = .ok reply → truthy reply = false →
        getProp data "error" = .ok err → truthy err = true → toStr err = .ok text →
        e = { role := "assistant", avatar := "R", content := "Error: " ++ text,
                  modelInfo := none }) ∧
      (∀ (data : JSValue) (reply err : Option JSValue),
        o = ChatOutcome.payload data → getProp data "reply" = .ok reply → truthy reply = false →
        getProp data "error" = .ok err → truthy err = false →
        e = { role := "assistant", avatar := "R", content := "Error: Unknown error",
                  modelInfo := none }) ∧
      (∀ (data : JSValue) (reply model : Option JSValue),
        o = ChatOutcome.payload data → getProp data "reply" = .ok reply → truthy reply = true →
        getProp data "model" = .ok model →
        (textContentOf reply = .error .typeError ∨
          (truthy model = true ∧ toStr model = .error .typeError)) →
        e = ⟨"assistant", "R", "Error: Failed to fetch response. Please try again.", none⟩) ∧
      (∀ (data : JSValue) (reply err : Option JSValue),
        o = ChatOutcome.payload data → getProp data "reply" = .ok reply → truthy reply = false →
        getProp data "error" = .ok err → truthy err = true → toStr err = .error .typeError →
        e = ⟨"assistant", "R", "Error: Failed to fetch response. Please try again.", none⟩) ∧
      (o = ChatOutcome.payload .null ∨ o = ChatOutcome.unparsable ∨ o = ChatOutcome.rejected →
        e = ⟨"assistant", "R", "Error: Failed to fetch response. Please try again.", none⟩) := by
  obtain ⟨e, he, hst⟩ := settling_appends o
  have key : ∀ (x : MessageElement),
      (applyChatEvent freshState o.settling).chatHistory = freshState.chatHistory ++ [x] →
      e = x := by
    intro x hx
    rw [(hst freshState).1] at hx
    simpa using List.append_cancel_left hx
  refine ⟨e, he, fun st => (hst st).1, ?_, ?_, ?_, ?_, ?_, ?_⟩
  · intro data reply model text m ho h1 h2 h3 h4 h5
    subst ho
    exact key _ (parsed_reply freshState data reply model text m h1 h2 h3 h4 h5)
  · intro data reply err text ho h1 h2 h3 h4 h5
    subst ho
    exact key _ (parsed_error freshState data reply err text h1 h2 h3 h4 h5)
  · intro data reply err ho h1 h2 h3 h4
    subst ho
    exact key _ (parsed_unknown freshState data reply err h1 h2 h3 h4)
  · intro data reply model ho h1 h2 h3 h4
    subst ho
    exact key _ (parsed_reply_throws freshState data reply model h1 h2 h3 h4)
  · intro data reply err ho h1 h2 h3 h4 h5
    subst ho
    exact key _ (parsed_error_throws freshState data reply err h1 h2 h3 h4 h5)
  · rintro (ho | ho | ho) <;> subst ho
    · exact key _ (parsed_null freshState)
    · exact key _ (by simp [ChatOutcome.settling, applyChatEvent, chatBodyFailed, chatCatch_eq])
    · exact key _ (by
        simp [ChatOutcome.settling, applyChatEvent, chatFetchRejected, chatCatch_eq])

/-- C9: send A, then send B while A is in flight, with B settling before A.  The
continuations of the two requests may interleave in any way that keeps each
request's own order and puts the settling continuation of B before that of A.  The
transcript then gains the user entry of A, the user entry of B, the assistant entry
of B, the assistant entry of A, in this order and nothing else.  Each assistant entry
is given by content from the outcome of its own request: the text of a truthy reply
with its model line, `Error: ` and the error text or `Unknown error` for a payload
with a falsy reply, and the fetch failure text for a rejection, an unparsable body, a
`null` payload or a value that cannot be converted to text. -/
theorem C9_overlapping_sends (s : AppState) (a b : String) (tA tB : Int)
    (oA oB : ChatOutcome) (p1 p2 l1 l2 : List ChatEvent)
    (ha : jsTrim a ≠ "") (hb : jsTrim b ≠ "")
    (hA : p1 ++ p2 = oA.before) (hB : l1 ++ l2 = oB.events) :
    ∃ eA eB : MessageElement,
      (∀ p ∈ [(oA, eA), (oB, eB)],
        p.2.role = "assistant" ∧
        (∀ st : AppState, (applyChatEvent st p.1.settling).chatHistory = st.chatHistory ++ [p.2]) ∧
        (∀ (data : JSValue) (reply model : Option JSValue) (text m : String),
          p.1 = ChatOutcome.payload data → getProp data "reply" = .ok reply → truthy reply = true →
          getProp data "model" = .ok model → textContentOf reply = .ok text → toStr model = .ok m →
          p.2 = { role := "assistant", avatar := "R", content := text,
                    modelInfo := if truthy model then some ("Model: " ++ m) else none }) ∧
        (∀ (data : JSValue) (reply err : Option JSValue) (text : String),
          p.1 = ChatOutcome.payload data → getProp data "reply" = .ok reply → truthy reply = false →
          getProp data "error" = .ok err → truthy err = true → toStr err = .ok text →
          p.2 = { role := "assistant", avatar := "R", content := "Error: " ++ text,
                    modelInfo := none }) ∧
        (∀ (data : JSValue) (reply err : Option JSValue),
          p.1 = ChatOutcome.payload data → getProp data "reply" = .ok reply → truthy reply = false →
          getProp data "error" = .ok err → truthy err = false →
          p.2 = { role := "assistant", avatar := "R", content := "Error: Unknown error",
                    modelInfo := none }) ∧
        (∀ (data : JSValue) (reply model : Option JSValue),
          p.1 = ChatOutcome.payload data → getProp data "reply" = .ok reply → truthy reply = true →
          getProp data "model" = .ok model →
          (textContentOf reply = .error .typeError ∨
            (truthy model = true ∧ toStr model = .error .typeError)) →
          p.2 = ⟨"assistant", "R", "Error: Failed to fetch response. Please try again.", none⟩) ∧
        (∀ (data : JSValue) (reply err : Option JSValue),
          p.1 = ChatOutcome.payload data → getProp data "reply" = .ok reply → truthy reply = false →
          getProp data "error" = .ok err → truthy err = true → toStr err = .error .typeError →
          p.2 = ⟨"assistant", "R", "Error: Failed to fetch response. Please try again.", none⟩) ∧
        (p.1 = ChatOutcome.payload .null ∨ p.1 = ChatOutcome.unparsable ∨ p.1 = ChatOutcome.rejected →
          p.2 = ⟨"assistant", "R", "Error: Failed to fetch response. Please try again.", none⟩)) ∧
      (runChatEvents (send (runChatEvents (send s a tA) p1) b tB)
          (l1 ++ p2 ++ l2 ++ [oA.settling])).chatHistory =
        s.chatHistory ++
          [{ role := "user", avatar := "Y", content := jsTrim a, modelInfo := none },
           { role := "user", avatar := "Y", content := jsTrim b, modelInfo := none },
           eB, eA] := by
  obtain ⟨eA, hcA⟩ := settling_content oA
  obtain ⟨eB, hcB⟩ := settling_content oB
  have hstA := hcA.2.1
  have hstB := hcB.2.1
  refine ⟨eA, eB, ?_, ?_⟩
  · intro p hp
    simp only [List.mem_cons, List.mem_singleton, List.not_mem_nil, or_false] at hp
    rcases hp with rfl | rfl
    · exact hcA
    · exact hcB
  have hp1 : ∀ ev ∈ p1, ev = ChatEvent.fetchResolved := fun ev hev =>
    mem_before oA ev (by rw [← hA]; exact List.mem_append_left _ hev)
  have hp2 : ∀ ev ∈ p2, ev = ChatEvent.fetchResolved := fun ev hev =>
    mem_before oA ev (by rw [← hA]; exact List.mem_append_right _ hev)
  have hs2 : (send (runChatEvents (send s a tA) p1) b tB).chatHistory = s.chatHistory ++
      [{ role := "user", avatar := "Y", content := jsTrim a, modelInfo := none },
       { role := "user", avatar := "Y", content := jsTrim b, modelInfo := none }] := by
    rw [(send_nonempty _ b tB hb).1, (run_fetchResolved p1 hp1 _).1, (send_nonempty s a tA ha).1]
    simp
  generalize send (runChatEvents (send s a tA) p1) b tB = s2 at hs2 ⊢
  have hone : ∀ st : AppState, ∀ ev, (runChatEvents st [ev]) = applyChatEvent st ev := by
    intro st ev; rfl
  rcases List.eq_nil_or_concat l2 with hnil | ⟨L, x, hx⟩
  · subst hnil
    rw [List.append_nil] at hB
    subst hB
    simp only [ChatOutcome.events, List.append_nil, runChatEvents_append, hone]
    rw [hstA _, (run_fetchResolved p2 hp2 _).1, hstB _,
      (run_fetchResolved oB.before (mem_before oB) _).1, hs2]
    simp
  · subst hx
    have hB2 : (l1 ++ L) ++ [x] = oB.before ++ [oB.settling] := by
      have h0 := hB
      simp only [ChatOutcome.events, List.concat_eq_append] at h0
      rw [← h0]; simp
    have hinj := List.append_inj' hB2 rfl
    have hxe : x = oB.settling := by simpa using hinj.2
    subst hxe
    have hl1 : ∀ ev ∈ l1, ev = ChatEvent.fetchResolved := fun ev hev =>
      mem_before oB ev (by rw [← hinj.1]; exact List.mem_append_left _ hev)
    have hL : ∀ ev ∈ L, ev = ChatEvent.fetchResolved := fun ev hev =>
      mem_before oB ev (by rw [← hinj.1]; exact List.mem_append_right _ hev)
    simp only [List.concat_eq_append, runChatEvents_append, hone]
    rw [hstA _, hstB _, (run_fetchResolved L hL _).1, (run_fetchResolved p2 hp2 _).1,
      (run_fetchResolved l1 hl1 _).1, hs2]
    simp

/-- Witness of C9: both requests end with a reply; the body of B is parsed after the
`fetch` of A has resolved and before the body of A is parsed, and the reply of B
stands before the reply of A. -/
theorem C9_overlapping_sends_witness :
    (runChatEvents (send (runChatEvents (send freshState "first" 1700000000000) []) "second"
        1700000000300)
        ([ChatEvent.fetchResolved] ++ [ChatEvent.fetchResolved]
          ++ [ChatEvent.bodyParsed otherReplyPayload]
          ++ [(ChatOutcome.payload replyPayload).settling])).chatHistory =
      freshState.chatHistory ++
        [{ role := "user", avatar := "Y", content := "first", modelInfo := none },
         { role := "user", avatar := "Y", content := "second", modelInfo := none },
         { role := "assistant", avatar := "R", content := "Shubh ratri",
           modelInfo := some "Model: m2" },
         { role := "assistant", avatar := "R", content := "Namaste",
           modelInfo := some "Model: m1" }] := by
  obtain ⟨eA, eB, hc, hfin⟩ :=
    C9_overlapping_sends freshState "first" "second" 1700000000000 1700000000300
      (ChatOutcome.payload replyPayload) (ChatOutcome.payload otherReplyPayload)
      [] [ChatEvent.fetchResolved] [ChatEvent.fetchResolved]
      [ChatEvent.bodyParsed otherReplyPayload] (by decide) (by decide) rfl rfl
  have hA := (hc (ChatOutcome.payload replyPayload, eA) (by simp)).2.2.1 replyPayload
    (some (.string "Namaste")) (some (.string "m1")) "Namaste" "m1" rfl rfl rfl rfl rfl rfl
  have hB := (hc (ChatOutcome.payload otherReplyPayload, eB) (by simp)).2.2.1 otherReplyPayload
    (some (.string "Shubh ratri")) (some (.string "m2")) "Shubh ratri" "m2" rfl rfl rfl rfl rfl rfl
  simp only [] at hA hB
  rw [hfin, hA, hB]
  decide

/-! ## Clear chat: the claims -/

theorem filter_enumFrom_pos (l : List MessageElement) (n : Nat) (hn : 0 < n) :
    (l.enumFrom n).filter (fun p => !(decide (p.1 > 0))) = [] := by
  induction l generalizing n with
  | nil => rfl
  | cons a t ih =>
    simp only [List.enumFrom_cons]
    rw [List.filter_cons_of_neg (by simp; omega)]
    exact ih (n + 1) (by omega)

theorem removeAfterFirst_eq (l : List MessageElement) : removeAfterFirst l = l.take 1 := by
  cases l with
  | nil => rfl
  | cons a t =>
    simp only [removeAfterFirst, List.enum, List.enumFrom_cons]
    rw [List.filter_cons_of_pos (by simp), filter_enumFrom_pos t (0 + 1) (by omega)]
    simp

/-- C5, counterexample: when the `/clear` request is rejected the transcript keeps
all its entries and gains one, and the counters keep their values. -/
theorem C5_counterexample :
    ¬ ((clearFetchRejected (clearChatHandler busyState)).chatHistory
          = busyState.chatHistory.take 1 ∧
       (clearFetchRejected (clearChatHandler busyState)).requestCount = 0 ∧
       (clearFetchRejected (clearChatHandler busyState)).lastRequestTime = 0) := by
  decide

/-- C5, amended: when the `/clear` request resolves, whatever the response, the
transcript is cut down to its first message, `requestCount` and `lastRequestTime`
become 0 and the warning is hidden; when the request is rejected the transcript gains
one assistant error entry and the counters and the warning are left as they were. -/
theorem C5_clear_outcomes (s : AppState) :
    ((clearFetchResolved s).chatHistory = s.chatHistory.take 1 ∧
     (clearFetchResolved s).requestCount = 0 ∧
     (clearFetchResolved s).lastRequestTime = 0 ∧
     (clearFetchResolved s).rateWarningShown = false) ∧
    ((clearFetchRejected s).chatHistory = s.chatHistory ++
        [{ role := "assistant", avatar := "R",
           content := "Error: Failed to clear chat. Please refresh the page.",
           modelInfo := none }] ∧
     (clearFetchRejected s).requestCount = s.requestCount ∧
     (clearFetchRejected s).lastRequestTime = s.lastRequestTime ∧
     (clearFetchRejected s).rateWarningShown = s.rateWarningShown) := by
  constructor
  · simp [clearFetchResolved, hideRateWarning, removeAfterFirst_eq]
  · simp [clearFetchRejected, addMessage_text]

/-- C7, counterexample: after a clear whose request was rejected, a send half a second
after the previous one counts as the 31st of the burst and shows the warning, while
the same send from the initial state counts as the first and hides it. -/
theorem C7_counterexample :
    ¬ ((send (clearFetchRejected (clearChatHandler busyState)) "hi" 1700000000500).requestCount
          = (send freshState "hi" 1700000000500).requestCount ∧
       (send (clearFetchRejected (clearChatHandler busyState)) "hi" 1700000000500).lastRequestTime
          = (send freshState "hi" 1700000000500).lastRequestTime ∧
       (send (clearFetchRejected (clearChatHandler busyState)) "hi" 1700000000500).rateWarningShown
          = (send freshState "hi" 1700000000500).rateWarningShown) := by
  decide

/-- C7, amended: after a clear whose `/clear` request has resolved, a send at time
`now` leaves `requestCount`, `lastRequestTime` and the warning as the same send does
from the initial state of the script on a page that starts with the warning hidden. -/
theorem C7_clear_then_send (s : AppState) (page : Page) (st : Storage) (text : String)
    (now : Int) (hpage : page.rateWarningShown = false) :
    (send (clearFetchResolved (clearChatHandler s)) text now).requestCount
      = (send (startup page st) text now).requestCount ∧
    (send (clearFetchResolved (clearChatHandler s)) text now).lastRequestTime
      = (send (startup page st) text now).lastRequestTime ∧
    (send (clearFetchResolved (clearChatHandler s)) text now).rateWarningShown
      = (send (startup page st) text now).rateWarningShown := by
  by_cases h : jsTrim text = ""
  · simp [send, submitHandler, h, clearFetchResolved, clearChatHandler, hideRateWarning,
      startup, hpage]
  · unfold send
    rw [submitHandler_nonempty _ now (by simpa using h),
      submitHandler_nonempty _ now (by simpa using h)]
    simp only []
    by_cases hg : now - 0 ≥ 2000
    · rw [rateLimitCheck_reset _ now (by simpa [clearFetchResolved, clearChatHandler, hideRateWarning] using hg),
        rateLimitCheck_reset _ now (by simpa [startup] using hg)]
      simp
    · have hlt : now - 0 < 2000 := by omega
      rw [rateLimitCheck_quiet _ now
          (by simpa [clearFetchResolved, clearChatHandler, hideRateWarning] using hlt)
          (by simp [clearFetchResolved, clearChatHandler, hideRateWarning]),
        rateLimitCheck_quiet _ now (by simpa [startup] using hlt) (by simp [startup])]
      simp [clearFetchResolved, clearChatHandler, hideRateWarning, startup, hpage]

/-- Witness of C7 from the middle of a burst. -/
theorem C7_clear_then_send_witness :
    examplePage.rateWarningShown = false ∧
    (send (clearFetchResolved (clearChatHandler busyState)) "hi" 1700000000500).requestCount
      = (send (startup examplePage []) "hi" 1700000000500).requestCount :=
  ⟨rfl, (C7_clear_then_send busyState examplePage [] "hi" 1700000000500 rfl).1⟩

/-! ## Preference persistence: the claims -/

theorem getItem_setItem (st : Storage) (key value : String) :
    getItem (setItem st key value) key = some value := by
  induction st with
  | nil => simp [setItem, getItem]
  | cons kv rest ih =>
    obtain ⟨k, v⟩ := kv
    by_cases h : k = key
    · simp [setItem, getItem, h]
    · simp [setItem, getItem, h, ih]

/-- C8, counterexample: on a page whose persona control offers an option with an empty
value besides the default one, selecting that option and reloading restores the
default persona, not the selected one. -/
theorem C8_counterexample :
    "" ∈ (startup blankOptionPage []).personaSelect.options ∧
    ¬ ((startup blankOptionPage
          (personaChangeHandler (selectPersona (startup blankOptionPage []) "")).localStorage
        ).personaSelect.value = "") := by
  decide

/-- C8, amended: a theme toggle sets the theme to `dark` or `light`, and the start-up
read of the storage it wrote yields that same theme; for every non-empty persona value
`p` offered by the persona control, the start-up read of the storage written by the
change handler restores the selection to `p` on a page offering the same options. -/
theorem C8_preferences_round_trip (s : AppState) (page : Page) (p : String)
    (hp : p ∈ s.personaSelect.options)
    (hpage : page.personaSelect.options = s.personaSelect.options) (hne : p ≠ "") :
    ((themeToggleHandler s).currentTheme = "dark" ∨
      (themeToggleHandler s).currentTheme = "light") ∧
    (s.currentTheme = "light" → (themeToggleHandler s).currentTheme = "dark") ∧
    (startup page (themeToggleHandler s).localStorage).currentTheme
      = (themeToggleHandler s).currentTheme ∧
    (selectPersona s p).personaSelect.value = p ∧
    (startup page (personaChangeHandler (selectPersona s p)).localStorage).personaSelect.value
      = p := by
  have hsel : (selectPersona s p).personaSelect.value = p := by
    simp [selectPersona, SelectElement.setValue, hp]
  refine ⟨?_, ?_, ?_, hsel, ?_⟩
  · by_cases h : s.currentTheme = "light" <;> simp [themeToggleHandler, h]
  · intro h; simp [themeToggleHandler, h]
  · by_cases h : s.currentTheme = "light" <;>
      simp [themeToggleHandler, h, startup, savedTheme, getItem_setItem]
  · have hp2 : p ∈ page.personaSelect.options := by rw [hpage]; exact hp
    simp [startup, loadSavedPersona, personaChangeHandler, hsel, getItem_setItem, hne,
      SelectElement.setValue, hp2]

/-- Witness of C8: from the light theme, selecting the persona `friendly`. -/
theorem C8_preferences_round_trip_witness :
    "friendly" ∈ freshState.personaSelect.options ∧
    (startup examplePage (themeToggleHandler freshState).localStorage).currentTheme = "dark" ∧
    (startup examplePage
        (personaChangeHandler (selectPersona freshState "friendly")).localStorage
      ).personaSelect.value = "friendly" :=
  ⟨by decide,
   ((C8_preferences_round_trip freshState examplePage "friendly" (by decide) rfl
      (by decide)).2.2.1).trans
    ((C8_preferences_round_trip freshState examplePage "friendly" (by decide) rfl
      (by decide)).2.1 rfl),
   (C8_preferences_round_trip freshState examplePage "friendly" (by decide) rfl
      (by decide)).2.2.2.2⟩

/-! ## Reply handling: the claims -/

/-- C6, counterexample: a payload whose reply is the empty string does not get an
entry whose text is that reply; the entry appended is the text `Error: Unknown error`. -/
theorem C6_counterexample :
    (chatBodyParsed freshState emptyReplyPayload).chatHistory = freshState.chatHistory ++
      [{ role := "assistant", avatar := "R", content := "Error: Unknown error",
         modelInfo := none }] ∧
    ¬ ∃ e : MessageElement, e.content = "" ∧
        (chatBodyParsed freshState emptyReplyPayload).chatHistory
          = freshState.chatHistory ++ [e] := by
  have h : (chatBodyParsed freshState emptyReplyPayload).chatHistory = freshState.chatHistory ++
      [{ role := "assistant", avatar := "R", content := "Error: Unknown error",
         modelInfo := none }] := by decide
  refine ⟨h, ?_⟩
  rintro ⟨e, he, h2⟩
  rw [h] at h2
  have h3 := List.append_cancel_left h2
  simp only [List.cons.injEq, and_true] at h3
  rw [← h3] at he
  exact absurd he (by decide)

/-- C6, amended: when reading `data.reply` gives a value, the Success branch is taken
exactly when that value is truthy (a string reply: when it is not empty).  With a
truthy reply, where the reply and the model convert to text, the appended assistant
entry carries the text of the reply, with the line `Model: ` and the model when the
model is truthy, and the model display is set.  With an absent or falsy reply (the
empty string included) the appended assistant entry is `Error: ` followed by the text
of the error when the error is truthy, and `Error: Unknown error` when it is not. -/
theorem C6_reply_truthiness (s : AppState) (data : JSValue) (reply : Option JSValue)
    (hreply : getProp data "reply" = .ok reply) :
    (truthy reply = true → ∀ (model : Option JSValue) (text m : String),
      getProp data "model" = .ok model → textContentOf reply = .ok text → toStr model = .ok m →
      chatBodyParsed s data =
        { s with
          chatHistory := s.chatHistory ++
            [{ role := "assistant", avatar := "R", content := text,
               modelInfo := if truthy model then some ("Model: " ++ m) else none }]
          currentModel := "Model: " ++ m }) ∧
    (truthy reply = false → ∀ (err : Option JSValue), getProp data "error" = .ok err →
      (truthy err = true → ∀ text : String, toStr err = .ok text →
        chatBodyParsed s data =
          { s with chatHistory := s.chatHistory ++
              [{ role := "assistant", avatar := "R", content := "Error: " ++ text,
                 modelInfo := none }] }) ∧
      (truthy err = false →
        chatBodyParsed s data =
          { s with chatHistory := s.chatHistory ++
              [{ role := "assistant", avatar := "R", content := "Error: Unknown error",
                 modelInfo := none }] })) := by
  refine ⟨?_, ?_⟩
  · intro ht model text m hmodel htext hm
    by_cases hmt : truthy model = true
    · simp [chatBodyParsed, chatTry, hreply, ht, hmodel, addMessage, createMessageElement,
        htext, hm, hmt]
    · simp [chatBodyParsed, chatTry, hreply, ht, hmodel, addMessage, createMessageElement,
        htext, hm, hmt]
  · intro hf err herr
    refine ⟨?_, ?_⟩
    · intro het text htext
      simp [chatBodyParsed, chatTry, hreply, hf, herr, het, htext, addMessage_text]
    · intro hef
      simp [chatBodyParsed, chatTry, hreply, hf, herr, hef, addMessage_text]

/-- Witness of C6: a payload with a reply and a model, and a payload with an error. -/
theorem C6_reply_truthiness_witness :
    chatBodyParsed freshState replyPayload =
      { freshState with
        chatHistory := freshState.chatHistory ++
          [{ role := "assistant", avatar := "R", content := "Namaste",
             modelInfo := some ("Model: " ++ "m1") }]
        currentModel := "Model: " ++ "m1" } ∧
    chatBodyParsed freshState errorPayload =
      { freshState with chatHistory := freshState.chatHistory ++
          [{ role := "assistant", avatar := "R", content := "Error: " ++ "quota exceeded",
             modelInfo := none }] } :=
  ⟨(C6_reply_truthiness freshState replyPayload (some (.string "Namaste")) rfl).1 rfl
      (some (.string "m1")) "Namaste" "m1" rfl rfl rfl,
   ((C6_reply_truthiness freshState errorPayload none rfl).2 rfl
      (some (.string "quota exceeded")) rfl).1 rfl "quota exceeded" rfl⟩

end DesiJarvis
